import Mathlib

/-!
Verification of the ALEX-LG workflow core (src/app.py) against its
natural-language specification.  The Python data frame is modelled as a
`List TaskRecord`; the five numeric columns, which `load_data` coerces to
numbers, are modelled as `ℚ`; every other column is a `String`.  Each
operation of the app is translated into a pure Lean function over this model.
-/

namespace AlexLG

/-- Python `s.replace(",", "")`: remove every comma from the string. -/
def stripCommas (s : String) : String := ⟨s.data.filter (fun c => c ≠ ',')⟩

/-- Python `s.strip()`: drop leading and trailing whitespace. -/
def pyStrip (s : String) : String :=
  ⟨((s.data.dropWhile Char.isWhitespace).reverse.dropWhile Char.isWhitespace).reverse⟩

/-- Python `s.startswith(p)`. -/
def pyStartsWith (s p : String) : Bool := p.data.isPrefixOf s.data

/-- Python `sub in s`: substring containment. -/
def pyContains (s sub : String) : Bool :=
  (List.range (s.data.length + 1)).any (fun i => sub.data.isPrefixOf (s.data.drop i))

/-- Value of a digit list, most significant digit first. -/
def digitsVal (l : List Char) : Nat := l.foldl (fun a c => a * 10 + (c.toNat - 48)) 0

/-- Python `float(s)` (as used on the sheet's cell values, i.e. plain decimal
literals): optional sign, then digits with an optional single decimal point and
at least one digit overall.  `none` when parsing fails (Python would raise
`ValueError`, which the callers catch). -/
def parseFloat (s : String) : Option ℚ :=
  let sgnBody : ℚ × List Char :=
    match s.data with
    | '-' :: t => (-1, t)
    | '+' :: t => (1, t)
    | l => (1, l)
  let ip := sgnBody.2.takeWhile Char.isDigit
  let rest := sgnBody.2.dropWhile Char.isDigit
  match rest with
  | [] => if ip.isEmpty then none else some (sgnBody.1 * digitsVal ip)
  | '.' :: frac =>
    if frac.all Char.isDigit && !(ip.isEmpty && frac.isEmpty) then
      some (sgnBody.1 * ((digitsVal ip : ℚ) + (digitsVal frac : ℚ) / (10 : ℚ) ^ frac.length))
    else none
  | _ => none

/-- Python format `f"{n:03d}"` for a nonnegative `n`: the decimal digits,
left-padded with zeros to width 3 (wider numbers are printed in full). -/
def pad3 (n : Nat) : String :=
  if n < 10 then "00" ++ toString n
  else if n < 100 then "0" ++ toString n
  else toString n

/-- One row of the shared table — the `COLUMNS` schema of src/app.py lines
79-85.  `load_data` (lines 101-104) coerces the five numeric columns to
numbers, and every later write stores numbers in them, so they are modelled
as `ℚ`; all other columns are display strings. -/
structure TaskRecord where
  task_id : String
  assigned_date : String
  lg_number : String
  branch : String
  post_type : String
  inputter : String
  req_type : String
  cif : String
  applicant : String
  in_favor_of : String
  beneficiary : String
  amount : ℚ
  current_total : ℚ
  currency : String
  lg_type : String
  cbe_serial : String
  authorizer : String
  md_ref : String
  postage_number : String
  comm_amount : ℚ
  comm_status : String
  comm_chg_ref : String
  status : String
  pending_reason : String
  to_be_started_on : String
  file_sent : ℚ
  original_recvd : ℚ
  original_recv_date : String
deriving Repr, DecidableEq

/-- A row as fetched from the table store before `load_data`'s normalisation:
every cell is a raw display string, and a column missing from the stored
table is `none`. -/
structure RawRow where
  task_id : Option String
  assigned_date : Option String
  lg_number : Option String
  branch : Option String
  post_type : Option String
  inputter : Option String
  req_type : Option String
  cif : Option String
  applicant : Option String
  in_favor_of : Option String
  beneficiary : Option String
  amount : Option String
  current_total : Option String
  currency : Option String
  lg_type : Option String
  cbe_serial : Option String
  authorizer : Option String
  md_ref : Option String
  postage_number : Option String
  comm_amount : Option String
  comm_status : Option String
  comm_chg_ref : Option String
  status : Option String
  pending_reason : Option String
  to_be_started_on : Option String
  file_sent : Option String
  original_recvd : Option String
  original_recv_date : Option String
deriving Repr, DecidableEq

/-- src/app.py lines 98-104 for one numeric cell: a missing column is first
synthesized as `""` (line 99); commas are removed (line 103); then
`pd.to_numeric(errors="coerce").fillna(0)` (line 104) parses the cell and
turns an unparseable cell into 0.  No error ever escapes. -/
def coerceNum (cell : Option String) : ℚ :=
  match cell with
  | none => 0
  | some s => (parseFloat (stripCommas s)).getD 0

/-- src/app.py lines 98-110 applied to one fetched row: synthesize missing
columns as `""`, coerce the five numeric columns, and strip surrounding
whitespace on `status`, `lg_number`, `req_type`, `cif`, `applicant`
(lines 107-108). -/
def loadRow (x : RawRow) : TaskRecord :=
  { task_id := x.task_id.getD "", assigned_date := x.assigned_date.getD "",
    lg_number := pyStrip (x.lg_number.getD ""), branch := x.branch.getD "",
    post_type := x.post_type.getD "", inputter := x.inputter.getD "",
    req_type := pyStrip (x.req_type.getD ""), cif := pyStrip (x.cif.getD ""),
    applicant := pyStrip (x.applicant.getD ""), in_favor_of := x.in_favor_of.getD "",
    beneficiary := x.beneficiary.getD "", amount := coerceNum x.amount,
    current_total := coerceNum x.current_total, currency := x.currency.getD "",
    lg_type := x.lg_type.getD "", cbe_serial := x.cbe_serial.getD "",
    authorizer := x.authorizer.getD "", md_ref := x.md_ref.getD "",
    postage_number := x.postage_number.getD "", comm_amount := coerceNum x.comm_amount,
    comm_status := x.comm_status.getD "", comm_chg_ref := x.comm_chg_ref.getD "",
    status := pyStrip (x.status.getD ""), pending_reason := x.pending_reason.getD "",
    to_be_started_on := x.to_be_started_on.getD "", file_sent := coerceNum x.file_sent,
    original_recvd := coerceNum x.original_recvd,
    original_recv_date := x.original_recv_date.getD "" }

/-- The spec's own wording for the numeric coercion of `load()`: strip
thousands separators and parse as a number, defaulting every unparseable or
missing value to 0.  Stated independently of `coerceNum` so that the two
routes can be compared. -/
def coerceNumSpec (cell : Option String) : ℚ :=
  (parseFloat (stripCommas (cell.getD ""))).getD 0

/-- src/app.py lines 152-157.  `today` stands for `get_current_date()`, the
Cairo-local date rendered as `DD-Mon-YYYY`; the function counts the existing
`task_id`s that start with today's date and appends the count plus one as a
three-digit sequence.  (The `'task_id' not in df.columns` guard of line 154 is
vacuous in this model because `load_data` synthesizes the column.) -/
def generate_task_id (df : List TaskRecord) (today : String) : String :=
  let count_today := (df.filter (fun r => pyStartsWith r.task_id today)).length
  today ++ "-" ++ pad3 (count_today + 1)

/-- src/app.py line 339 (and 486): hard delete of the row with the selected
`task_id`. -/
def deleteTask (df : List TaskRecord) (id : String) : List TaskRecord :=
  df.filter (fun r => r.task_id != id)

/-- src/app.py lines 210-227 evaluated on a loaded table.  After `load_data`
every `current_total`/`amount` cell holds the decimal rendering of its numeric
value (commas removed, coerced, line 104), so
`float(str(v).replace(",","").strip())` on it always succeeds and returns the
value itself and the `except` branches cannot fire; what remains is: take the
last row whose `lg_number` matches, use its `current_total`, and fall back to
its `amount` when that total is zero (lines 219-225). -/
def searchHistoryPrevTot (df : List TaskRecord) (lg : String) : ℚ :=
  match (df.filter (fun r => r.lg_number == lg)).getLast? with
  | none => 0
  | some last => if last.current_total = 0 then last.amount else last.current_total

/-- A table row as the history lookup of src/app.py lines 210-227 sees it
before numeric interpretation: the three cells it reads, as raw display
strings. -/
structure HistRow where
  lg_number : String
  current_total : String
  amount : String
deriving Repr, DecidableEq

/-- src/app.py lines 219-225 on raw string cells: parse `current_total` after
`.replace(",","").strip()`, 0.0 on failure; if the result is 0, parse `amount`
the same way, 0.0 on failure. -/
def prevTotOfRow (r : HistRow) : ℚ :=
  let v := (parseFloat (pyStrip (stripCommas r.current_total))).getD 0
  if v = 0 then (parseFloat (pyStrip (stripCommas r.amount))).getD 0 else v

/-- src/app.py lines 210-213 and 219-225: the full history resolution over raw
string cells — filter the rows whose `lg_number` matches, take the last one
(`hist.iloc[-1]`), and resolve the previous total from it; 0 when no row
matches. -/
def resolveHistory (rows : List HistRow) (lg : String) : ℚ :=
  match (rows.filter (fun r => r.lg_number == lg)).getLast? with
  | none => 0
  | some last => prevTotOfRow last

/-- Modelled from the spec's words (§4.2, claim C5): select the record with
the greatest insertion order whose `lg_number` matches; normalize its
`current_total` (strip thousands separators and surrounding whitespace) and
parse it; when that value is zero or absent fall back to that record's
`amount`, likewise normalized; parse failure yields 0.0 rather than an
error. -/
def resolveHistorySpec (rows : List HistRow) (lg : String) : ℚ :=
  match rows.reverse.find? (fun r => r.lg_number == lg) with
  | none => 0
  | some last =>
    match parseFloat (pyStrip (stripCommas last.current_total)) with
    | none => (parseFloat (pyStrip (stripCommas last.amount))).getD 0
    | some v =>
      if v = 0 then (parseFloat (pyStrip (stripCommas last.amount))).getD 0 else v

/-- src/app.py lines 269-278: the Financials block of the Create tab.  When
the request type contains "Increase" or "Decrease", the entered value is a
delta (`txn_amt`), the stored amount becomes the previous total (`final_amt =
prev_tot`, line 275) and the stored total the previous total plus/minus the
delta; otherwise the entered amount (`amt_input`) is stored as both amount and
total.  Returns `(final_amt, final_tot)`. -/
def computeFinancials (req : String) (prev_tot txn_amt amt_input : ℚ) : ℚ × ℚ :=
  if pyContains req "Increase" || pyContains req "Decrease" then
    let new_tot := if pyContains req "Increase" then prev_tot + txn_amt else prev_tot - txn_amt
    (prev_tot, new_tot)
  else (amt_input, amt_input)

/-- The form inputs of the Create tab (src/app.py lines 204-296) that feed the
Assign Task action: the history-search text, the new LG number, the request
type, the delta amount (`txn_amt`, line 272) and the plain amount input
(`amt_input`, line 277), and the remaining descriptive fields. -/
structure CreateInput where
  lg_search : String
  new_lg : String
  req : String
  txn_amt : ℚ
  amt_input : ℚ
  branch : String
  cif : String
  applicant : String
  in_favor_of : String
  beneficiary : String
  currency : String
  lg_type : String
  post_type : String
  md_ref : String
  comm_chg_ref : String
  inputter : String
deriving Repr, DecidableEq

/-- Result of the Assign Task button: either the error of line 298 (empty LG
number, nothing saved) or the new table that line 310 saves. -/
inductive CreateResult where
  | validationError (msg : String)
  | created (df : List TaskRecord)
deriving Repr, DecidableEq

/-- The previous total used by task creation: src/app.py lines 208-227 —
`prev_tot` starts at 0.0 and is overwritten by the history lookup only when a
search string was entered (`if lg_search and not df.empty`, line 210). -/
def histBase (df : List TaskRecord) (inp : CreateInput) : ℚ :=
  if inp.lg_search = "" then 0 else searchHistoryPrevTot df inp.lg_search

/-- The `new_row` dictionary of src/app.py lines 301-309, with
`task_id = generate_task_id(df)`, `assigned_date = today`, the financial pair
from lines 269-278, `status = "Active"` and the zero/empty defaults of lines
307-308. -/
def createdRecord (user today : String) (df : List TaskRecord) (inp : CreateInput) :
    TaskRecord :=
  let fin := computeFinancials inp.req (histBase df inp) inp.txn_amt inp.amt_input
  { task_id := generate_task_id df today, assigned_date := today,
    lg_number := inp.new_lg, lg_type := inp.lg_type, branch := inp.branch,
    cif := inp.cif, applicant := inp.applicant, in_favor_of := inp.in_favor_of,
    beneficiary := inp.beneficiary, inputter := inp.inputter, authorizer := user,
    req_type := inp.req, amount := fin.1, current_total := fin.2,
    currency := inp.currency, post_type := inp.post_type, md_ref := inp.md_ref,
    comm_chg_ref := inp.comm_chg_ref, status := "Active",
    file_sent := 0, original_recvd := 0, original_recv_date := "",
    pending_reason := "", to_be_started_on := "", comm_amount := 0,
    comm_status := "", cbe_serial := "", postage_number := "" }

/-- src/app.py lines 297-311: the Assign Task action.  `if not new_lg` (line
298) reports "LG # Required" and saves nothing; otherwise the new row is
appended to the table (`pd.concat`, line 310) and saved. -/
def createTask (user today : String) (df : List TaskRecord) (inp : CreateInput) :
    CreateResult :=
  if inp.new_lg = "" then .validationError "LG # Required"
  else .created (df ++ [createdRecord user today df inp])

/-- The decision radio of the Review tab (src/app.py line 371). -/
inductive Decision where
  | approve
  | pending
  | ret
deriving Repr, DecidableEq

/-- The form inputs of the Review tab (src/app.py lines 350-372): the
annotation fields, the two commission inputs whose sum is stored (line 375),
and the reason text. -/
structure ReviewInput where
  md_ref : String
  base_comm : ℚ
  pend_comm : ℚ
  comm_chg_ref : String
  cbe_serial : String
  comm_status : String
  postage_number : String
  to_be_started_on : String
  reason : String
deriving Repr, DecidableEq

/-- src/app.py lines 374-386: the Execute action of the Review tab on the
selected record.  The annotation fields are always written (lines 377-379);
Approve sets the status to "Completed" (line 382), the other two decisions set
it to "Pending"/"Active" and record the reason (lines 385-386).  There is no
precondition of any kind: no field of the record is checked before the
mutation. -/
def executeReview (r : TaskRecord) (i : ReviewInput) (dec : Decision) : TaskRecord :=
  let r2 := { r with md_ref := i.md_ref, comm_amount := i.base_comm + i.pend_comm,
                     comm_status := i.comm_status, comm_chg_ref := i.comm_chg_ref,
                     cbe_serial := i.cbe_serial, postage_number := i.postage_number,
                     to_be_started_on := i.to_be_started_on }
  match dec with
  | .approve => { r2 with status := "Completed" }
  | .pending => { r2 with status := "Pending", pending_reason := i.reason }
  | .ret => { r2 with status := "Active", pending_reason := i.reason }

/-- src/app.py lines 508-511 (and 594-597): the Doc Tracking "Confirm File
Sent" action — offered precisely for records that are already Completed with
`file_sent == 0` (line 502) — sets `file_sent` to 1. -/
def confirmFileSent (r : TaskRecord) : TaskRecord := { r with file_sent := 1 }

/-- src/app.py lines 527-530 (and 613-616): the Doc Tracking "Confirm Original
Received" action sets `original_recvd` to 1, stamps the received date, and
reclassifies `post_type` to "Original". -/
def confirmOriginalReceived (r : TaskRecord) (dt : String) : TaskRecord :=
  { r with original_recvd := 1, original_recv_date := dt, post_type := "Original" }

/-- The inputs of one Global Pendings expander (src/app.py lines 391-403).
`comm_amount` is entered as text (line 397) and stored verbatim (line 406);
it is modelled by the numeric value the cell carries after the save/load
round trip through the store's coercion. -/
structure ReleaseInput where
  md_ref : String
  cbe_serial : String
  comm_amount : ℚ
  file_sent : Bool
  original_recvd : Bool
  reason : String
  dest_inputter : Bool
deriving Repr, DecidableEq

/-- src/app.py lines 404-410: the Release action of the Global Pendings tab.
It writes the annotation fields, sets `file_sent`/`original_recvd` from the
checkboxes (line 407) — without touching `post_type` — and routes the record
to "Active" or "Ready for Auth" depending on the chosen destination. -/
def pendingsRelease (r : TaskRecord) (i : ReleaseInput) : TaskRecord :=
  { r with md_ref := i.md_ref, cbe_serial := i.cbe_serial, comm_amount := i.comm_amount,
           file_sent := if i.file_sent then 1 else 0,
           original_recvd := if i.original_recvd then 1 else 0,
           pending_reason := i.reason,
           status := if i.dest_inputter then "Active" else "Ready for Auth" }

/-- The form inputs of the Master Task Manager (src/app.py lines 460-479). -/
structure MasterInput where
  status : String
  authorizer : String
  postage1 : String
  postage2 : String
  to_be_started_on : String
  inputter : String
  cbe_serial : String
  md_ref : String
  amount : ℚ
  comm_amount : ℚ
  comm_chg_ref : String
  current_total : ℚ
  file_sent : Bool
  original_recvd : Bool
deriving Repr, DecidableEq

/-- src/app.py lines 488-496: the non-delete branch of the Master Task
Manager's Update Task action.  It combines the two postage inputs (line 490)
and overwrites the listed fields, setting `file_sent`/`original_recvd` from
the checkboxes (line 493) without touching `post_type`. -/
def masterUpdate (r : TaskRecord) (i : MasterInput) : TaskRecord :=
  let final_post := i.postage1 ++ (if i.postage2 ≠ "" then " | " ++ i.postage2 else "")
  { r with status := i.status, authorizer := i.authorizer, postage_number := final_post,
           inputter := i.inputter, cbe_serial := i.cbe_serial, md_ref := i.md_ref,
           comm_amount := i.comm_amount, file_sent := if i.file_sent then 1 else 0,
           original_recvd := if i.original_recvd then 1 else 0,
           amount := i.amount, current_total := i.current_total,
           comm_chg_ref := i.comm_chg_ref, to_be_started_on := i.to_be_started_on }

/-!  Concrete sample data used by the counterexamples and witnesses. -/

/-- The Create-tab inputs of a first task for guarantee LG100: no history
search, request type "New", amount 1000. -/
def createNew : CreateInput :=
  { lg_search := "", new_lg := "LG100", req := "New", txn_amt := 0, amt_input := 1000,
    branch := "Alex", cif := "123", applicant := "ACME", in_favor_of := "",
    beneficiary := "BEN", currency := "EGP", lg_type := "Bid Bond",
    post_type := "Original", md_ref := "", comm_chg_ref := "", inputter := "inp1" }

/-- The Create-tab inputs of a follow-on "Increase" task for LG100 with a
delta of 200, resolving history for LG100. -/
def createIncrease : CreateInput :=
  { createNew with lg_search := "LG100", req := "Increase", txn_amt := 200, amt_input := 0 }

/-- The same inputs with the LG number left empty. -/
def createEmptyLg : CreateInput := { createNew with new_lg := "" }

/-- The record that `createTask` appends for `createNew` on an empty table on
2025-01-01: id 001, amount = current_total = 1000, status Active. -/
def demoR1 : TaskRecord :=
  { task_id := "01-Jan-2025-001", assigned_date := "01-Jan-2025",
    lg_number := "LG100", branch := "Alex", post_type := "Original",
    inputter := "inp1", req_type := "New", cif := "123", applicant := "ACME",
    in_favor_of := "", beneficiary := "BEN", amount := 1000, current_total := 1000,
    currency := "EGP", lg_type := "Bid Bond", cbe_serial := "", authorizer := "auth1",
    md_ref := "", postage_number := "", comm_amount := 0, comm_status := "",
    comm_chg_ref := "", status := "Active", pending_reason := "",
    to_be_started_on := "", file_sent := 0, original_recvd := 0,
    original_recv_date := "" }

/-- The record that `createTask` appends for `createIncrease` after `demoR1`:
id 002, stored amount 1000 (the base, i.e. the previous total), stored
current_total 1200. -/
def demoR2 : TaskRecord :=
  { demoR1 with task_id := "01-Jan-2025-002", req_type := "Increase",
                current_total := 1200 }

/-- A record sitting in "Ready for Auth" whose file-sent confirmation is
absent (`file_sent = 0`). -/
def readyNoFile : TaskRecord :=
  { demoR1 with status := "Ready for Auth", authorizer := "auth1" }

/-- A "Pending" record whose post type is "Copy" and whose original has not
been received. -/
def pendingCopy : TaskRecord :=
  { demoR1 with status := "Pending", post_type := "Copy" }

/-- Review-tab inputs that leave every annotation at its default. -/
def sampleReview : ReviewInput :=
  { md_ref := "MD1", base_comm := 0, pend_comm := 0, comm_chg_ref := "",
    cbe_serial := "", comm_status := "", postage_number := "",
    to_be_started_on := "", reason := "" }

/-- Pendings-tab Release inputs with the "Orig Recvd" checkbox ticked and the
destination set to Inputter. -/
def sampleRelease : ReleaseInput :=
  { md_ref := "", cbe_serial := "", comm_amount := 0, file_sent := false,
    original_recvd := true, reason := "", dest_inputter := true }

/-- A raw fetched row whose numeric cells carry thousands separators, whose
`beneficiary` column is missing, and whose `file_sent` cell is unparseable. -/
def sampleRaw : RawRow :=
  { task_id := some "01-Jan-2025-001", assigned_date := some "01-Jan-2025",
    lg_number := some " LG100 ", branch := some "Alex", post_type := some "Original",
    inputter := some "inp1", req_type := some "New", cif := some "123",
    applicant := some "ACME", in_favor_of := some "", beneficiary := none,
    amount := some "1,234.5", current_total := some "12,000",
    currency := some "EGP", lg_type := some "Bid Bond", cbe_serial := some "",
    authorizer := some "auth1", md_ref := some "", postage_number := some "",
    comm_amount := none, comm_status := some "", comm_chg_ref := some "",
    status := some "Active ", pending_reason := some "",
    to_be_started_on := some "", file_sent := some "yes",
    original_recvd := some "0", original_recv_date := some "" }

/-- Master-Manager inputs with the "Orig Recvd" checkbox ticked. -/
def sampleMaster : MasterInput :=
  { status := "Pending", authorizer := "auth1", postage1 := "", postage2 := "",
    to_be_started_on := "", inputter := "inp1", cbe_serial := "", md_ref := "",
    amount := 1000, comm_amount := 0, comm_chg_ref := "", current_total := 1000,
    file_sent := false, original_recvd := true }

/-!  Helper lemmas shared by the claim theorems. -/

/-- The last element of a filtered list is the first match of the reversed
list: "greatest insertion order" selection. -/
theorem filter_getLast?_eq_reverse_find? {α : Type} (p : α → Bool) (l : List α) :
    (l.filter p).getLast? = l.reverse.find? p := by
  rw [← List.head?_reverse, ← List.filter_reverse, List.filter_head?]

/-- A string starts with any string it textually extends. -/
theorem pyStartsWith_append (p s : String) : pyStartsWith (p ++ s) p = true := by
  unfold pyStartsWith
  rw [String.data_append, List.isPrefixOf_iff_prefix]
  exact List.prefix_append _ _

/-- The code's per-cell coercion and the spec's wording of it agree. -/
theorem coerceNum_eq_spec (c : Option String) : coerceNum c = coerceNumSpec c := by
  cases c <;> rfl

/-- A creation with a non-empty LG number appends exactly the new record. -/
theorem createTask_ok (user today : String) (df : List TaskRecord) (inp : CreateInput)
    (h : ¬ inp.new_lg = "") :
    createTask user today df inp = .created (df ++ [createdRecord user today df inp]) := by
  simp [createTask, h]

/-!  Claim theorems. -/

/-- C1 counterexample: on a "Ready for Auth" record whose `file_sent` flag is
not 1, the Authorizer's Approve does not fail — it mutates the record, whose
status becomes "Completed" instead of remaining "Ready for Auth".  The Execute
branch of the Review tab performs no file-sent check at all. -/
theorem C1_counterexample :
    readyNoFile.status = "Ready for Auth" ∧ readyNoFile.file_sent ≠ 1 ∧
    (executeReview readyNoFile sampleReview .approve).status = "Completed" ∧
    (executeReview readyNoFile sampleReview .approve).status ≠ "Ready for Auth" := by
  decide

/-- C1 (amended): an Authorizer's Approve taken while the file-sent
confirmation is not supplied succeeds without any validation: the record is
mutated, its status becomes "Completed", and `file_sent` is left unchanged
(still not 1). -/
theorem C1_approve_unguarded (r : TaskRecord) (i : ReviewInput) (_h : r.file_sent ≠ 1) :
    (executeReview r i .approve).status = "Completed" ∧
    (executeReview r i .approve).file_sent = r.file_sent :=
  ⟨rfl, rfl⟩

/-- C1 witness: the amended theorem instantiated on the sample record. -/
theorem C1_approve_unguarded_witness :
    (executeReview readyNoFile sampleReview .approve).status = "Completed" ∧
    (executeReview readyNoFile sampleReview .approve).file_sent = readyNoFile.file_sent :=
  C1_approve_unguarded readyNoFile sampleReview (by decide)

/-- C3 counterexample: Approve on a "Ready for Auth" record with
`file_sent = 0` produces a "Completed" record whose `file_sent` is still not
1 — Approve never touches `file_sent`. -/
theorem C3_counterexample :
    readyNoFile.file_sent = 0 ∧
    (executeReview readyNoFile sampleReview .approve).status = "Completed" ∧
    (executeReview readyNoFile sampleReview .approve).file_sent ≠ 1 := by
  decide

/-- C3 (amended): a successful Approve transitions the record to "Completed"
but leaves `file_sent` unchanged rather than forcing it to 1, so a Completed
record produced by Approve can carry `file_sent = 0`. -/
theorem C3_approve_keeps_file_sent (r : TaskRecord) (i : ReviewInput) :
    (executeReview r i .approve).status = "Completed" ∧
    (executeReview r i .approve).file_sent = r.file_sent :=
  ⟨rfl, rfl⟩

/-- C4 counterexample: the Global Pendings Release action with the
"Orig Recvd" checkbox ticked sets `original_recvd` to 1 on a
`post_type = "Copy"` record without reclassifying it — the post type stays
"Copy". -/
theorem C4_counterexample :
    pendingCopy.post_type = "Copy" ∧ sampleRelease.original_recvd = true ∧
    (pendingsRelease pendingCopy sampleRelease).original_recvd = 1 ∧
    (pendingsRelease pendingCopy sampleRelease).post_type ≠ "Original" := by
  decide

/-- C4 (amended): only the Doc-Tracking "Confirm Original Received" operation
reclassifies — it sets `original_recvd` to 1 and `post_type` to "Original";
the Pendings Release and Master-Manager Update operations set
`original_recvd` to 1 while leaving `post_type` unchanged, so the invariant
is not preserved by every operation that can set the flag. -/
theorem C4_flag_operations (r : TaskRecord) (dt : String) (i : ReleaseInput)
    (m : MasterInput) (hi : i.original_recvd = true) (hm : m.original_recvd = true) :
    ((confirmOriginalReceived r dt).original_recvd = 1 ∧
     (confirmOriginalReceived r dt).post_type = "Original") ∧
    ((pendingsRelease r i).original_recvd = 1 ∧
     (pendingsRelease r i).post_type = r.post_type) ∧
    ((masterUpdate r m).original_recvd = 1 ∧
     (masterUpdate r m).post_type = r.post_type) := by
  refine ⟨⟨rfl, rfl⟩, ⟨?_, rfl⟩, ⟨?_, rfl⟩⟩
  · simp [pendingsRelease, hi]
  · simp [masterUpdate, hm]

/-- C4 witness: the amended theorem instantiated on the sample Copy record. -/
theorem C4_flag_operations_witness :
    ((confirmOriginalReceived pendingCopy "2025-01-02").original_recvd = 1 ∧
     (confirmOriginalReceived pendingCopy "2025-01-02").post_type = "Original") ∧
    ((pendingsRelease pendingCopy sampleRelease).original_recvd = 1 ∧
     (pendingsRelease pendingCopy sampleRelease).post_type = pendingCopy.post_type) ∧
    ((masterUpdate pendingCopy sampleMaster).original_recvd = 1 ∧
     (masterUpdate pendingCopy sampleMaster).post_type = pendingCopy.post_type) :=
  C4_flag_operations pendingCopy "2025-01-02" sampleRelease sampleMaster rfl rfl

/-- C2 counterexample: the reachable two-task history of guarantee LG100 —
a "New" task of amount 1000 followed by an "Increase" of delta 200 — stores
`amount = 1000` (the base, i.e. the previous total) and
`current_total = 1200` on the second record, so
`current_total[1] ≠ current_total[0] + amount[1]` (1200 ≠ 2000): the stored
`amount` of an Increase record is not the added delta. -/
theorem C2_counterexample :
    createTask "auth1" "01-Jan-2025" [] createNew = .created [demoR1] ∧
    createTask "auth1" "01-Jan-2025" [demoR1] createIncrease
      = .created [demoR1, createdRecord "auth1" "01-Jan-2025" [demoR1] createIncrease] ∧
    pyContains (createdRecord "auth1" "01-Jan-2025" [demoR1] createIncrease).req_type
      "Increase" = true ∧
    (createdRecord "auth1" "01-Jan-2025" [demoR1] createIncrease).current_total
      ≠ demoR1.current_total
        + (createdRecord "auth1" "01-Jan-2025" [demoR1] createIncrease).amount := by
  have hCT : (createdRecord "auth1" "01-Jan-2025" [demoR1] createIncrease).current_total
      = 1200 := by
    have hc : pyContains createIncrease.req "Increase" = true := by decide
    have hp : histBase [demoR1] createIncrease = 1000 := by decide
    have ht : createIncrease.txn_amt = 200 := by decide
    simp only [createdRecord, computeFinancials, hc, Bool.true_or, if_true, hp, ht]
    norm_num
  have hA : (createdRecord "auth1" "01-Jan-2025" [demoR1] createIncrease).amount = 1000 := by
    decide
  refine ⟨by decide, createTask_ok "auth1" "01-Jan-2025" [demoR1] createIncrease (by decide),
    by decide, ?_⟩
  rw [hCT, hA]
  norm_num [demoR1]

/-- C2 (amended): for each created record, when `req_type` contains
"Increase" the stored `current_total` equals the resolved previous total plus
the entered delta and the stored `amount` equals the previous total itself
(the base, not the delta); with "Decrease" (and no "Increase") the total is
the previous total minus the delta, the amount again the base; for any other
`req_type` both stored fields equal the entered amount. -/
theorem C2_running_total (user today : String) (df : List TaskRecord) (inp : CreateInput)
    (h : ¬ inp.new_lg = "") :
    createTask user today df inp = .created (df ++ [createdRecord user today df inp]) ∧
    (pyContains inp.req "Increase" = true →
      (createdRecord user today df inp).amount = histBase df inp ∧
      (createdRecord user today df inp).current_total = histBase df inp + inp.txn_amt) ∧
    (pyContains inp.req "Increase" = false → pyContains inp.req "Decrease" = true →
      (createdRecord user today df inp).amount = histBase df inp ∧
      (createdRecord user today df inp).current_total = histBase df inp - inp.txn_amt) ∧
    (pyContains inp.req "Increase" = false → pyContains inp.req "Decrease" = false →
      (createdRecord user today df inp).amount = inp.amt_input ∧
      (createdRecord user today df inp).current_total = inp.amt_input) := by
  refine ⟨createTask_ok user today df inp h, ?_, ?_, ?_⟩
  · intro hInc
    simp [createdRecord, computeFinancials, hInc]
  · intro hInc hDec
    simp [createdRecord, computeFinancials, hInc, hDec]
  · intro hInc hDec
    simp [createdRecord, computeFinancials, hInc, hDec]

/-- C2 witness: the amended theorem instantiated on the concrete Increase
creation over the one-record history. -/
theorem C2_running_total_witness :
    pyContains createIncrease.req "Increase" = true ∧
    ((createdRecord "auth1" "01-Jan-2025" [demoR1] createIncrease).amount
        = histBase [demoR1] createIncrease ∧
     (createdRecord "auth1" "01-Jan-2025" [demoR1] createIncrease).current_total
        = histBase [demoR1] createIncrease + createIncrease.txn_amt) :=
  ⟨by decide,
   (C2_running_total "auth1" "01-Jan-2025" [demoR1] createIncrease (by decide)).2.1
     (by decide)⟩

/-- C5: the history resolution of the Create tab coincides, on every record
set and target LG number, with the specified behaviour — select the matching
record of greatest insertion order, normalize and parse its `current_total`,
fall back to its normalized `amount` when the total is zero or absent, and
yield 0.0 instead of an error on parse failure. -/
theorem C5_history_resolution (rows : List HistRow) (lg : String) :
    resolveHistory rows lg = resolveHistorySpec rows lg := by
  unfold resolveHistory resolveHistorySpec
  rw [filter_getLast?_eq_reverse_find?]
  cases rows.reverse.find? (fun r => r.lg_number == lg) with
  | none => rfl
  | some last =>
    unfold prevTotOfRow
    cases hp : parseFloat (pyStrip (stripCommas last.current_total)) with
    | none => simp [hp]
    | some v =>
      by_cases hv : v = 0 <;> simp [hp, hv]

/-- C6: the generated identifier has the form {date}-{seq:03d}, `seq` being
one plus the number of existing task ids whose string prefix is the date. -/
theorem C6_id_form (df : List TaskRecord) (today : String) :
    generate_task_id df today
      = today ++ "-" ++ pad3 (df.countP (fun r => pyStartsWith r.task_id today) + 1) := by
  unfold generate_task_id
  rw [List.countP_eq_length_filter]

/-- The sequence number a creation from table `df` would use on date
`today`: one plus the count of ids carrying today's prefix. -/
def seqNumber (df : List TaskRecord) (today : String) : Nat :=
  (df.filter (fun r => pyStartsWith r.task_id today)).length + 1

/-- C7: a serialized creation appends a record whose id starts with today's
date, so the count of same-prefix ids grows and the sequence number used by
the next creation on the same date is strictly larger. -/
theorem C7_strictly_increasing (user today : String) (df df2 : List TaskRecord)
    (inp : CreateInput) (h : createTask user today df inp = .created df2) :
    seqNumber df today < seqNumber df2 today := by
  unfold createTask at h
  by_cases hlg : inp.new_lg = ""
  · simp [hlg] at h
  · rw [if_neg hlg] at h
    cases h
    have hpre : pyStartsWith (createdRecord user today df inp).task_id today = true := by
      show pyStartsWith (generate_task_id df today) today = true
      unfold generate_task_id
      rw [String.append_assoc]
      exact pyStartsWith_append today _
    unfold seqNumber
    rw [List.filter_append]
    simp [hpre]

/-- C7 witness: two serialized creations on 2025-01-01 — the second uses a
strictly larger sequence number. -/
theorem C7_strictly_increasing_witness :
    seqNumber [] "01-Jan-2025" < seqNumber [demoR1] "01-Jan-2025" :=
  C7_strictly_increasing "auth1" "01-Jan-2025" [] [demoR1] createNew (by decide)

/-- C8: creation with an empty LG number yields the validation error and no
table is produced (nothing is saved, so the stored table is unchanged); with
a non-empty LG number exactly one record is appended, carrying status
"Active", the freshly generated task id, and today's date as
`assigned_date`. -/
theorem C8_create_validation (user today : String) (df : List TaskRecord)
    (inp : CreateInput) :
    (inp.new_lg = "" → createTask user today df inp = .validationError "LG # Required") ∧
    (¬ inp.new_lg = "" →
      createTask user today df inp = .created (df ++ [createdRecord user today df inp]) ∧
      (createdRecord user today df inp).status = "Active" ∧
      (createdRecord user today df inp).task_id = generate_task_id df today ∧
      (createdRecord user today df inp).assigned_date = today) := by
  constructor
  · intro h
    simp [createTask, h]
  · intro h
    exact ⟨createTask_ok user today df inp h, rfl, rfl, rfl⟩

/-- C8 witness: the two branches instantiated on concrete inputs. -/
theorem C8_create_validation_witness :
    createTask "auth1" "01-Jan-2025" [] createEmptyLg = .validationError "LG # Required" ∧
    createTask "auth1" "01-Jan-2025" [] createNew
      = .created ([] ++ [createdRecord "auth1" "01-Jan-2025" [] createNew]) ∧
    (createdRecord "auth1" "01-Jan-2025" [] createNew).status = "Active" :=
  ⟨(C8_create_validation "auth1" "01-Jan-2025" [] createEmptyLg).1 rfl,
   ((C8_create_validation "auth1" "01-Jan-2025" [] createNew).2 (by decide)).1,
   ((C8_create_validation "auth1" "01-Jan-2025" [] createNew).2 (by decide)).2.1⟩

/-- C9: `load` coerces each of the five numeric columns exactly as the spec
words it — strip thousands separators, parse, default unparseable or missing
values to 0, never surfacing an error — and synthesizes a missing column as
empty. -/
theorem C9_load_coercion (x : RawRow) :
    (loadRow x).amount = coerceNumSpec x.amount ∧
    (loadRow x).current_total = coerceNumSpec x.current_total ∧
    (loadRow x).file_sent = coerceNumSpec x.file_sent ∧
    (loadRow x).original_recvd = coerceNumSpec x.original_recvd ∧
    (loadRow x).comm_amount = coerceNumSpec x.comm_amount ∧
    (x.beneficiary = none → (loadRow x).beneficiary = "") := by
  refine ⟨coerceNum_eq_spec _, coerceNum_eq_spec _, coerceNum_eq_spec _,
    coerceNum_eq_spec _, coerceNum_eq_spec _, ?_⟩
  intro h
  simp [loadRow, h]

/-- C9 witness: on the sample raw row — missing `beneficiary` column,
unparseable `file_sent` cell — the loaded record has an empty beneficiary and
the spec-worded coercion on each numeric cell. -/
theorem C9_load_coercion_witness :
    (loadRow sampleRaw).beneficiary = "" ∧
    (loadRow sampleRaw).comm_amount = coerceNumSpec sampleRaw.comm_amount ∧
    (loadRow sampleRaw).file_sent = coerceNumSpec sampleRaw.file_sent :=
  ⟨(C9_load_coercion sampleRaw).2.2.2.2.2 rfl,
   (C9_load_coercion sampleRaw).2.2.2.2.1,
   (C9_load_coercion sampleRaw).2.2.1⟩

/-- C10: the generator counts same-prefix ids instead of taking their
maximum sequence.  Fully serialized operations — create 001, create 002,
delete 001 — reach a table whose only record has id {date}-002; on that table
the generator counts one matching id and returns {date}-002 again, colliding
with the existing task id. -/
theorem C10_count_collision :
    createTask "auth1" "01-Jan-2025" [] createNew = .created [demoR1] ∧
    createTask "auth1" "01-Jan-2025" [demoR1] createIncrease
      = .created [demoR1, createdRecord "auth1" "01-Jan-2025" [demoR1] createIncrease] ∧
    deleteTask [demoR1, createdRecord "auth1" "01-Jan-2025" [demoR1] createIncrease]
        "01-Jan-2025-001"
      = [createdRecord "auth1" "01-Jan-2025" [demoR1] createIncrease] ∧
    (createdRecord "auth1" "01-Jan-2025" [demoR1] createIncrease).task_id
      = "01-Jan-2025-002" ∧
    generate_task_id [createdRecord "auth1" "01-Jan-2025" [demoR1] createIncrease]
        "01-Jan-2025"
      = "01-Jan-2025-002" := by
  have h1 : (demoR1.task_id != "01-Jan-2025-001") = false := by decide
  have h2 : ((createdRecord "auth1" "01-Jan-2025" [demoR1] createIncrease).task_id
      != "01-Jan-2025-001") = true := by decide
  refine ⟨by decide,
    createTask_ok "auth1" "01-Jan-2025" [demoR1] createIncrease (by decide), ?_,
    by decide, by decide⟩
  simp [deleteTask, h1, h2]

end AlexLG
